import Mathlib

/-!
# Verification of the OpenClaw core-rotation control loop

Shallow embedding of the rotation plugin (handler + types) and proofs about
its guards, state machine, archive validation and injection-payload assembly.

Modelling conventions:
* ISO-8601 timestamps are modelled as integer epoch milliseconds
  (`new Date(s)` / `toISOString` form a bijection on valid timestamps).
* JavaScript numbers used as counters / minutes are modelled as `Int`;
  the fractional `injectionBudgetPercent` and the backoff multiplier are
  modelled as `Rat` (the binary-double rounding of `Math.floor` agrees with
  the rational floor on all the concrete values considered here).
* The filesystem is an association list from paths to file contents; the
  atomically committed `rotation-state.json` is a separate parsed slot.
* Host-library behaviour that the repository only calls (JSON.parse of
  transcript lines, shape checks on dynamic message objects) is a parameter
  of the embedding, bundled in `Host`.
-/

namespace CoreRotation

/-- The six states of the rotation FSM (`RotationStateName` in types.ts). -/
inductive RotationStateName where
  | IDLE
  | PENDING
  | ARCHIVING
  | ARCHIVED
  | INJECTED
  | COOLDOWN
deriving DecidableEq, Repr

/-- One completed-rotation record (`RotationHistoryEntry` in types.ts). -/
structure RotationHistoryEntry where
  rotatedAt : Int
  oldSessionId : String
  newSessionId : String
  triggerCompactionCount : Int
  injectedTokensEstimate : Int
deriving DecidableEq, Repr

/-- The durable rotation state record (`RotationState` in types.ts). -/
structure RotationState where
  version : Int
  state : RotationStateName
  startedAt : Option Int
  oldSessionId : Option String
  oldSessionFile : Option String
  archivePath : Option String
  newSessionId : Option String
  cooldownUntil : Option Int
  triggerCompactionCount : Option Int
  cumulativeCompactionCount : Int
  rotationHistory : List RotationHistoryEntry
  injectedTokensEstimate : Option Int
  error : Option String
  updatedAt : Int
deriving DecidableEq, Repr

/-- `CooldownConfig` in types.ts. -/
structure CooldownConfig where
  minCompactions : Int
  minMinutes : Int
deriving DecidableEq, Repr

/-- `CircuitBreakerConfig` in types.ts. -/
structure CircuitBreakerConfig where
  maxRotations : Int
  windowMinutes : Int
deriving DecidableEq, Repr

/-- `RotationConfig` in types.ts. -/
structure RotationConfig where
  enabled : Bool
  compactionCountThreshold : Int
  injectionBudgetPercent : Rat
  recentMessagePairs : Int
  oldSessionPolicyArchive : Bool
  notifyOnRotation : Bool
  contextWindow : Int
  cooldown : CooldownConfig
  circuitBreaker : CircuitBreakerConfig
deriving DecidableEq, Repr

/-- `MessagePair` in types.ts. -/
structure MessagePair where
  user : String
  assistant : String
deriving DecidableEq, Repr

/-- `RotationMetadata` in types.ts. -/
structure RotationMetadata where
  rotationNumber : Int
  reason : String
  previousSessionId : String
  archivePath : String
  compactionCount : Int
deriving DecidableEq, Repr

/-- `InjectionPayload` in types.ts. -/
structure InjectionPayload where
  longTermMemory : String
  todayLog : String
  yesterdayLog : String
  recentMessages : List MessagePair
  metadata : RotationMetadata
  estimatedTokens : Nat
deriving DecidableEq, Repr

/-- `VALID_TRANSITIONS` in types.ts. -/
def VALID_TRANSITIONS : RotationStateName → List RotationStateName
  | .IDLE => [.PENDING]
  | .PENDING => [.IDLE, .ARCHIVING]
  | .ARCHIVING => [.ARCHIVED, .PENDING]
  | .ARCHIVED => [.INJECTED]
  | .INJECTED => [.COOLDOWN]
  | .COOLDOWN => [.IDLE]

/-- `DEFAULT_CONFIG` in types.ts. -/
def DEFAULT_CONFIG : RotationConfig where
  enabled := true
  compactionCountThreshold := 3
  injectionBudgetPercent := 15 / 100
  recentMessagePairs := 5
  oldSessionPolicyArchive := true
  notifyOnRotation := true
  contextWindow := 200000
  cooldown := { minCompactions := 3, minMinutes := 30 }
  circuitBreaker := { maxRotations := 3, windowMinutes := 30 }

/-- `DEFAULT_STATE` in types.ts (epoch `updatedAt`). -/
def DEFAULT_STATE : RotationState where
  version := 1
  state := .IDLE
  startedAt := none
  oldSessionId := none
  oldSessionFile := none
  archivePath := none
  newSessionId := none
  cooldownUntil := none
  triggerCompactionCount := none
  cumulativeCompactionCount := 0
  rotationHistory := []
  injectedTokensEstimate := none
  error := none
  updatedAt := 0

-- ---------------------------------------------------------------------------
-- Filesystem model
-- ---------------------------------------------------------------------------

/-- Association-list filesystem: path to file content, first match wins. -/
def lookupFile : List (String × String) → String → Option String
  | [], _ => none
  | e :: rest, p => if e.1 = p then some e.2 else lookupFile rest p

/-- `writeFileSync` (create or overwrite). -/
def setFile (files : List (String × String)) (p content : String) : List (String × String) :=
  (p, content) :: files.filter (fun e => e.1 ≠ p)

/-- `unlinkSync` (idempotent here, the source wraps it in try/catch). -/
def removeFile (files : List (String × String)) (p : String) : List (String × String) :=
  files.filter (fun e => e.1 ≠ p)

/-- `readFileOrEmpty` in the handler. -/
def readFileOrEmpty (files : List (String × String)) (filePath : String) : String :=
  (lookupFile files filePath).getD ""

/-- The world a handler invocation acts on: plain files plus the
atomically committed, parsed `rotation-state.json` slot. -/
structure World where
  files : List (String × String)
  stateFile : Option RotationState
deriving DecidableEq, Repr

-- ---------------------------------------------------------------------------
-- Structural string primitives (JS `trim` / `split`, character-level)
-- ---------------------------------------------------------------------------

/-- JS `String.prototype.trim`. -/
def trimString (s : String) : String :=
  ((s.toList.dropWhile Char.isWhitespace).reverse.dropWhile Char.isWhitespace).reverse.asString

/-- Accumulator loop of `split(c)`. -/
def splitOnCharAux (c : Char) : List Char → List Char → List String
  | [], cur => [cur.reverse.asString]
  | x :: xs, cur =>
    if x = c then cur.reverse.asString :: splitOnCharAux c xs []
    else splitOnCharAux c xs (x :: cur)

/-- JS `String.prototype.split` with a one-character separator. -/
def splitOnChar (c : Char) (s : String) : List String :=
  splitOnCharAux c s.toList []

-- ---------------------------------------------------------------------------
-- Token estimation and payload assembly (pure core)
-- ---------------------------------------------------------------------------

/-- `estimateTokens`: `Math.ceil(text.length / 4)`. -/
def estimateTokens (text : String) : Nat :=
  (text.length + 3) / 4

/-- One character of `JSON.stringify` string escaping. -/
def jsonEscapeChar (c : Char) : String :=
  if c = '"' then "\\\""
  else if c = '\\' then "\\\\"
  else if c = '\n' then "\\n"
  else if c = '\r' then "\\r"
  else if c = '\t' then "\\t"
  else String.singleton c

/-- `JSON.stringify` escaping of a string body. -/
def jsonEscape (s : String) : String :=
  String.join (s.toList.map jsonEscapeChar)

/-- `JSON.stringify(meta)` for a `RotationMetadata` object (field order is
insertion order, as in V8). -/
def jsonStringifyMetadata (m : RotationMetadata) : String :=
  "\x7b\"rotationNumber\":" ++ toString m.rotationNumber ++
  ",\"reason\":\"" ++ jsonEscape m.reason ++
  "\",\"previousSessionId\":\"" ++ jsonEscape m.previousSessionId ++
  "\",\"archivePath\":\"" ++ jsonEscape m.archivePath ++
  "\",\"compactionCount\":" ++ toString m.compactionCount ++ "\x7d"

/-- `estimatePayloadTokens` in the handler. -/
def estimatePayloadTokens (memory today yesterday : String)
    (pairs : List MessagePair) (meta : RotationMetadata) : Nat :=
  let messagesText := String.join (pairs.map (fun p => p.user ++ p.assistant))
  let metaText := jsonStringifyMetadata meta
  estimateTokens (memory ++ today ++ yesterday ++ messagesText ++ metaText)

/-- `truncateMemory`: keep the first 70% and the lines from the 80% mark on
(`Math.floor(lines.length * 0.7)` / `* 0.8` modelled as rational floors). -/
def truncateMemory (text : String) : String :=
  let lines := splitOnChar '\n' text
  let headEnd := lines.length * 7 / 10
  let tailStart := lines.length * 8 / 10
  let head := lines.take headEnd
  let tail := lines.drop tailStart
  String.intercalate "\n" (head ++ ["\n[... truncated for token budget ...]\n"] ++ tail)

/-- The estimate-and-truncate chain of `buildInjectionPayload` (lines 277-300
of the handler), with the file reads and budget computation factored out as
arguments.  Numbered locals model the TypeScript reassignments. -/
def buildInjectionPayloadCore (tokenBudget : Int) (mem0 today0 yest0 : String)
    (pairs0 : List MessagePair) (meta : RotationMetadata) : InjectionPayload :=
  let total0 := estimatePayloadTokens mem0 today0 yest0 pairs0 meta
  let yest1 := if tokenBudget < (total0 : Int) ∧ yest0 ≠ "" then "" else yest0
  let total1 := if tokenBudget < (total0 : Int) ∧ yest0 ≠ "" then
      estimatePayloadTokens mem0 today0 yest1 pairs0 meta
    else total0
  let pairs1 := if tokenBudget < (total1 : Int) ∧ 3 < pairs0.length then
      pairs0.drop (pairs0.length - 3)
    else pairs0
  let total2 := if tokenBudget < (total1 : Int) ∧ 3 < pairs0.length then
      estimatePayloadTokens mem0 today0 yest1 pairs1 meta
    else total1
  let mem1 := if tokenBudget < (total2 : Int) ∧ mem0 ≠ "" then truncateMemory mem0 else mem0
  let total3 := if tokenBudget < (total2 : Int) ∧ mem0 ≠ "" then
      estimatePayloadTokens mem1 today0 yest1 pairs1 meta
    else total2
  let today1 := if tokenBudget < (total3 : Int) then "" else today0
  let pairs2 := if tokenBudget < (total3 : Int) then pairs1.drop (pairs1.length - 1) else pairs1
  let total4 := if tokenBudget < (total3 : Int) then
      estimatePayloadTokens mem1 today1 yest1 pairs2 meta
    else total3
  { longTermMemory := mem1, todayLog := today1, yesterdayLog := yest1,
    recentMessages := pairs2, metadata := meta, estimatedTokens := total4 }

-- ---------------------------------------------------------------------------
-- Guards
-- ---------------------------------------------------------------------------

/-- Placeholder record for the (never hit) out-of-bounds index of
`rotationHistory[rotationHistory.length - 1]`. -/
def emptyHistoryEntry : RotationHistoryEntry :=
  { rotatedAt := 0, oldSessionId := "", newSessionId := "",
    triggerCompactionCount := 0, injectedTokensEstimate := 0 }

/-- `isInCooldown` in the handler. -/
def isInCooldown (now : Int) (state : RotationState) (config : RotationConfig)
    (currentCompactionCount : Option Int) : Bool :=
  if (match state.cooldownUntil with
      | some t => decide (now < t)
      | none => false) then true
  else if state.rotationHistory.length = 0 then false
  else
    let last := state.rotationHistory.getLastD emptyHistoryEntry
    let msSinceLast := now - last.rotatedAt
    if msSinceLast < config.cooldown.minMinutes * 60000 then true
    else match currentCompactionCount with
      | some c =>
        if c - last.triggerCompactionCount < config.cooldown.minCompactions then true else false
      | none => false

/-- `checkCircuitBreaker` in the handler. -/
def checkCircuitBreaker (now : Int) (state : RotationState) (config : RotationConfig) : Bool :=
  let windowStart := now - config.circuitBreaker.windowMinutes * 60000
  let recentRotations := state.rotationHistory.filter (fun h => decide (windowStart < h.rotatedAt))
  decide ((recentRotations.length : Int) < config.circuitBreaker.maxRotations)

/-- `getBackoffMultiplier` in the handler (doubles 1.0 / 0.67 / 0.33 as
rationals). -/
def getBackoffMultiplier (now : Int) (state : RotationState) (config : RotationConfig) : Rat :=
  let windowStart := now - config.circuitBreaker.windowMinutes * 60000
  let consecutiveRecent :=
    (state.rotationHistory.filter (fun h => decide (windowStart < h.rotatedAt))).length
  if consecutiveRecent = 0 then 1
  else if consecutiveRecent = 1 then 67 / 100
  else 33 / 100

-- ---------------------------------------------------------------------------
-- Archive validation and transcript scanning
-- ---------------------------------------------------------------------------

/-- `content.trim().split('\n').filter(Boolean)`: the structured records of a
transcript file. -/
def fileRecords (content : String) : List String :=
  (splitOnChar '\n' (trimString content)).filter (fun l => l ≠ "")

/-- `validateArchive` in the handler.  `parseRecord` models success of the
host's `JSON.parse` on one record line. -/
def validateArchive (parseRecord : String → Bool) (files : List (String × String))
    (archivePath originalPath : String) : Bool :=
  match lookupFile files archivePath with
  | none => false
  | some archiveContent =>
    let archiveLines := fileRecords archiveContent
    if archiveLines.length = 0 then false
    else if ¬ parseRecord (archiveLines.headD "") then false
    else if ¬ parseRecord (archiveLines.getLastD "") then false
    else match lookupFile files originalPath with
      | none => false
      | some originalContent =>
        let originalLines := fileRecords originalContent
        decide (archiveLines.length = originalLines.length)

/-- The tool_use / tool_result identifiers a parsed transcript line
contributes (dynamic JSON shape checks happen in the host parser). -/
structure LineView where
  toolUseIds : List String
  toolResultIds : List String

/-- `hasActiveTasks` in the handler: scan the last 50 transcript lines for a
`tool_use` id without a matching `tool_result`. -/
def hasActiveTasks (parseLine : String → Option LineView)
    (files : List (String × String)) (sessionFile : String) : Bool :=
  let content := readFileOrEmpty files sessionFile
  if content = "" then false
  else
    let lines := splitOnChar '\n' (trimString content)
    let tail := lines.drop (lines.length - 50)
    let toolUseIds := tail.foldl
      (fun acc l => match parseLine l with | some v => acc ++ v.toolUseIds | none => acc) []
    let toolResultIds := tail.foldl
      (fun acc l => match parseLine l with | some v => acc ++ v.toolResultIds | none => acc) []
    toolUseIds.any (fun i => ! toolResultIds.contains i)

/-- A transcript message as seen by `extractRecentMessages` after the host's
`JSON.parse` plus the typeof-string check and stringification. -/
structure Msg where
  role : String
  contentText : String

/-- The backward scan of `extractRecentMessages` over the reversed line
list.  A pending assistant turn is "truthy" only when non-null and
non-empty, exactly as the TypeScript truthiness tests behave. -/
def extractLoop (parseMsg : String → Option Msg) (count : Int) :
    List String → Option String → List MessagePair → List MessagePair
  | [], _, pairs => pairs
  | l :: rest, pending, pairs =>
    if count ≤ (pairs.length : Int) then pairs
    else
      match parseMsg l with
      | none => extractLoop parseMsg count rest pending pairs
      | some msg =>
        if msg.role = "assistant" ∧ pending.getD "" = "" then
          extractLoop parseMsg count rest (some msg.contentText) pairs
        else if msg.role = "user" ∧ pending.getD "" ≠ "" then
          extractLoop parseMsg count rest none
            ({ user := msg.contentText, assistant := pending.getD "" } :: pairs)
        else
          extractLoop parseMsg count rest pending pairs

/-- `extractRecentMessages` in the handler. -/
def extractRecentMessages (parseMsg : String → Option Msg)
    (files : List (String × String)) (sessionFile : String) (count : Int) : List MessagePair :=
  if sessionFile = "" then []
  else
    let content := readFileOrEmpty files sessionFile
    if content = "" then []
    else
      let lines := splitOnChar '\n' (trimString content)
      extractLoop parseMsg count lines.reverse none []

-- ---------------------------------------------------------------------------
-- State machine persistence
-- ---------------------------------------------------------------------------

/-- A `Partial<RotationState>` field-update map: `some v` means the key is
present with value `v` (for nullable fields `some none` sets the field to
null). -/
structure StateUpdates where
  state : Option RotationStateName := none
  startedAt : Option (Option Int) := none
  oldSessionId : Option (Option String) := none
  oldSessionFile : Option (Option String) := none
  archivePath : Option (Option String) := none
  newSessionId : Option (Option String) := none
  cooldownUntil : Option (Option Int) := none
  triggerCompactionCount : Option (Option Int) := none
  cumulativeCompactionCount : Option Int := none
  rotationHistory : Option (List RotationHistoryEntry) := none
  injectedTokensEstimate : Option (Option Int) := none
  error : Option (Option String) := none
  updatedAt : Option Int := none
deriving DecidableEq, Repr

/-- The object spread `{ ...currentState, ...updates }`. -/
def applyUpdates (s : RotationState) (u : StateUpdates) : RotationState where
  version := s.version
  state := u.state.getD s.state
  startedAt := u.startedAt.getD s.startedAt
  oldSessionId := u.oldSessionId.getD s.oldSessionId
  oldSessionFile := u.oldSessionFile.getD s.oldSessionFile
  archivePath := u.archivePath.getD s.archivePath
  newSessionId := u.newSessionId.getD s.newSessionId
  cooldownUntil := u.cooldownUntil.getD s.cooldownUntil
  triggerCompactionCount := u.triggerCompactionCount.getD s.triggerCompactionCount
  cumulativeCompactionCount := u.cumulativeCompactionCount.getD s.cumulativeCompactionCount
  rotationHistory := u.rotationHistory.getD s.rotationHistory
  injectedTokensEstimate := u.injectedTokensEstimate.getD s.injectedTokensEstimate
  error := u.error.getD s.error
  updatedAt := u.updatedAt.getD s.updatedAt

/-- `readState` applied to the raw state-file content: a missing file
(`readFileSync` throws) or unparsable content (`JSON.parse` throws) both
yield `DEFAULT_STATE` with a fresh `updatedAt`. -/
def readStateFromContent (parseState : String → Option RotationState)
    (raw : Option String) (now : Int) : RotationState :=
  match raw with
  | none => { DEFAULT_STATE with updatedAt := now }
  | some content =>
    match parseState content with
    | none => { DEFAULT_STATE with updatedAt := now }
    | some s => s

/-- `readState` over the world model (the parsed state-file slot:
`none` stands for missing-or-unparsable, collapsed exactly as
`readStateFromContent` collapses them). -/
def readStateW (w : World) (now : Int) : RotationState :=
  w.stateFile.getD { DEFAULT_STATE with updatedAt := now }

/-- `writeState`: validate the FSM transition, merge updates, force `state`
and `updatedAt`, and commit atomically (the write-tmp-then-rename sequence
is the single update of the `stateFile` slot). -/
def writeStateW (now : Int) (w : World) (currentState : RotationState)
    (newStateName : RotationStateName) (updates : StateUpdates) :
    Except String (RotationState × World) :=
  if newStateName ∈ VALID_TRANSITIONS currentState.state then
    let newState := { applyUpdates currentState updates with
      state := newStateName, updatedAt := now }
    .ok (newState, { w with stateFile := some newState })
  else
    .error "Invalid state transition"

/-- `patchState`: merge updates and commit without an FSM transition check. -/
def patchStateW (now : Int) (w : World) (currentState : RotationState)
    (updates : StateUpdates) : RotationState × World :=
  let newState := { applyUpdates currentState updates with updatedAt := now }
  (newState, { w with stateFile := some newState })

-- ---------------------------------------------------------------------------
-- Paths and host context
-- ---------------------------------------------------------------------------

/-- `basename` of the session file with the .jsonl suffix stripped. -/
def basenameJsonl (p : String) : String :=
  let name := (splitOnChar '/' p).getLastD ""
  let cs := name.toList
  if 6 ≤ cs.length ∧ cs.drop (cs.length - 6) = ".jsonl".toList then
    (cs.take (cs.length - 6)).asString
  else name

/-- `resolve` of the workspace dir with the parent segment: the parent directory. -/
def parentDir (p : String) : String :=
  String.intercalate "/" (splitOnChar '/' p).dropLast

/-- The `Partial<GatewayContext>` a hook receives (fields the handler reads). -/
structure GatewayCtx where
  workspaceDir : Option String := none
  sessionId : Option String := none
deriving DecidableEq, Repr

/-- `deriveAgentDir`: parent of `workspaceDir`; `null` (or an empty, falsy
`workspaceDir`) gives `null`. -/
def deriveAgentDir (ctx : GatewayCtx) : Option String :=
  match ctx.workspaceDir with
  | none => none
  | some ws => if ws = "" then none else some (parentDir ws)

/-- The `after_compaction` event payload (fields the handler reads). -/
structure AfterCompactionEvent where
  messageCount : Int := 0
  tokenCount : Int := 0
  compactedCount : Int := 0
  sessionFile : String
deriving DecidableEq, Repr

/-- Ambient host behaviour the handler consumes: the clock-derived daily-log
dates, the generated fresh session id, and the host JSON parsing of
transcript lines. -/
structure Host where
  today : String
  yesterday : String
  newSessionId : String
  parseRecord : String → Bool
  parseMsg : String → Option Msg
  parseLine : String → Option LineView

-- ---------------------------------------------------------------------------
-- Payload assembly (file reads + budget) and rendering
-- ---------------------------------------------------------------------------

/-- `${state.triggerCompactionCount}` in a template literal (null prints as
the word null). -/
def optIntToString : Option Int → String
  | none => "null"
  | some n => toString n

/-- `buildInjectionPayload` in the handler: gather artifacts, compute the
backed-off budget, build the metadata block and run the truncation chain. -/
def buildInjectionPayload (host : Host) (config : RotationConfig) (ctx : GatewayCtx)
    (agentDir : String) (state : RotationState) (now : Int) (w : World) : InjectionPayload :=
  let workspaceDir := ctx.workspaceDir.getD (agentDir ++ "/workspace")
  let longTermMemory := readFileOrEmpty w.files (workspaceDir ++ "/MEMORY.md")
  let todayLog := readFileOrEmpty w.files (workspaceDir ++ "/memory/" ++ host.today ++ ".md")
  let yesterdayLog := readFileOrEmpty w.files (workspaceDir ++ "/memory/" ++ host.yesterday ++ ".md")
  let sessionFile := state.oldSessionFile.getD ""
  let messagePairs := extractRecentMessages host.parseMsg w.files sessionFile config.recentMessagePairs
  let backoffMultiplier := getBackoffMultiplier now state config
  let tokenBudget := Int.floor ((config.contextWindow : Rat) * config.injectionBudgetPercent * backoffMultiplier)
  let metadata : RotationMetadata := {
    rotationNumber := (state.rotationHistory.length : Int) + 1,
    reason := "compactionCount reached " ++ optIntToString state.triggerCompactionCount,
    previousSessionId := state.oldSessionId.getD "unknown",
    archivePath := state.archivePath.getD "unknown",
    compactionCount := state.triggerCompactionCount.getD 0 }
  buildInjectionPayloadCore tokenBudget longTermMemory todayLog yesterdayLog messagePairs metadata

/-- `formatInjectionMessage` in the handler. -/
def formatInjectionMessage (payload : InjectionPayload) : String :=
  let sections : List String :=
    ["[SYSTEM] This is a fresh session after automatic core rotation.",
     "Previous session was archived after " ++ toString payload.metadata.compactionCount ++ " compactions.\n",
     "## Inherited Memory\n"]
  let sections := sections ++
    (if payload.longTermMemory ≠ "" then
      ["### Long-term Memory (MEMORY.md)\n" ++ payload.longTermMemory ++ "\n"] else [])
  let sections := sections ++
    (if payload.todayLog ≠ "" then
      ["### Recent Daily Log\n" ++ payload.todayLog ++ "\n"] else [])
  let sections := sections ++
    (if payload.yesterdayLog ≠ "" then
      ["### Yesterday\x27s Daily Log\n" ++ payload.yesterdayLog ++ "\n"] else [])
  let sections := sections ++
    (if 0 < payload.recentMessages.length then
      ["### Recent Conversation (last " ++ toString payload.recentMessages.length ++ " exchanges)"] ++
      payload.recentMessages.map
        (fun pair => "\n**User:** " ++ pair.user ++ "\n**Assistant:** " ++ pair.assistant) ++
      [""] else [])
  let sections := sections ++
    ["### Rotation Context",
     "- Rotation #: " ++ toString payload.metadata.rotationNumber,
     "- Reason: " ++ payload.metadata.reason,
     "- Previous session: " ++ payload.metadata.previousSessionId,
     "- Archive: " ++ payload.metadata.archivePath,
     "",
     "Continue serving the user based on this context."]
  String.intercalate "\n" sections

-- ---------------------------------------------------------------------------
-- Rotation logic
-- ---------------------------------------------------------------------------

/-- `finishRotation`: append the history entry and enter COOLDOWN. -/
def finishRotation (agentDir : String) (state : RotationState) (config : RotationConfig)
    (now : Int) (w : World) : World × Option String :=
  let entry : RotationHistoryEntry := {
    rotatedAt := now,
    oldSessionId := state.oldSessionId.getD "unknown",
    newSessionId := state.newSessionId.getD "unknown",
    triggerCompactionCount := state.triggerCompactionCount.getD 0,
    injectedTokensEstimate := state.injectedTokensEstimate.getD 0 }
  let history := state.rotationHistory ++ [entry]
  let cooldownUntil := now + config.cooldown.minMinutes * 60000
  match writeStateW now w state .COOLDOWN
      { cooldownUntil := some (some cooldownUntil),
        rotationHistory := some history, error := some none } with
  | .error e => (w, some e)
  | .ok (_, w) => (w, none)

/-- `rotatePhase2`: build and write the injection document, enter INJECTED,
then finish. -/
def rotatePhase2 (host : Host) (config : RotationConfig) (ctx : GatewayCtx)
    (agentDir : String) (state : RotationState) (now : Int) (w : World) : World × Option String :=
  let payload := buildInjectionPayload host config ctx agentDir state now w
  let injectionMessage := formatInjectionMessage payload
  let w := { w with files := setFile w.files (agentDir ++ "/rotation-injection.md") injectionMessage }
  match writeStateW now w state .INJECTED
      { newSessionId := some (some host.newSessionId),
        injectedTokensEstimate := some (some (payload.estimatedTokens : Int)) } with
  | .error e => (w, some e)
  | .ok (state, w) => finishRotation agentDir state config now w

/-- `rotate` in the handler: IDLE to PENDING to ARCHIVING, copy and validate
the archive (rolling back through PENDING to IDLE on validation failure),
then ARCHIVED and phase 2.  A thrown exception is the `some` error
component, with the world as committed up to the throw. -/
def rotate (host : Host) (config : RotationConfig) (event : AfterCompactionEvent)
    (ctx : GatewayCtx) (agentDir : String) (cumulativeCount : Int) (now : Int)
    (w : World) : World × Option String :=
  let sessionFile := event.sessionFile
  let sessionId := ctx.sessionId.getD (basenameJsonl sessionFile)
  let state := readStateW w now
  match writeStateW now w state .PENDING
      { startedAt := some (some now),
        oldSessionId := some (some sessionId),
        oldSessionFile := some (some sessionFile),
        triggerCompactionCount := some (some cumulativeCount) } with
  | .error e => (w, some e)
  | .ok (state, w) =>
    let archivePath := agentDir ++ "/sessions/archive/" ++ sessionId ++ ".jsonl"
    match writeStateW now w state .ARCHIVING { archivePath := some (some archivePath) } with
    | .error e => (w, some e)
    | .ok (state, w) =>
      match lookupFile w.files sessionFile with
      | none => (w, some "ENOENT")
      | some content =>
        let w := { w with files := setFile w.files archivePath content }
        if ¬ validateArchive host.parseRecord w.files archivePath sessionFile then
          match writeStateW now w state .PENDING { archivePath := some none } with
          | .error e => (w, some e)
          | .ok (state, w) =>
            match writeStateW now w state .IDLE { error := some (some "Archive validation failed") } with
            | .error e => (w, some e)
            | .ok (_, w) => (w, none)
        else
          match writeStateW now w state .ARCHIVED {} with
          | .error e => (w, some e)
          | .ok (state, w) => rotatePhase2 host config ctx agentDir state now w

-- ---------------------------------------------------------------------------
-- Hook handlers
-- ---------------------------------------------------------------------------

/-- `onAfterCompaction` in the handler (the loaded config is a parameter:
config-file loading is outside the core). -/
def onAfterCompaction (host : Host) (config : RotationConfig) (event : AfterCompactionEvent)
    (ctx : GatewayCtx) (w : World) (now : Int) : World × Option String :=
  match deriveAgentDir ctx with
  | none => (w, none)
  | some agentDir =>
    if config.enabled = false then (w, none)
    else
      let state := readStateW w now
      let cumulativeCount := state.cumulativeCompactionCount + 1
      let sw := patchStateW now w state { cumulativeCompactionCount := some cumulativeCount }
      let state := sw.1
      let w := sw.2
      if state.state = .COOLDOWN then
        match state.cooldownUntil with
        | some t =>
          if t ≤ now then
            match writeStateW now w state .IDLE { cooldownUntil := some none } with
            | .error e => (w, some e)
            | .ok (_, w) => (w, none)
          else (w, none)
        | none => (w, none)
      else if state.state ≠ .IDLE then (w, none)
      else if cumulativeCount < config.compactionCountThreshold then (w, none)
      else if ¬ checkCircuitBreaker now state config then (w, none)
      else if isInCooldown now state config (some cumulativeCount) then (w, none)
      else if hasActiveTasks host.parseLine w.files event.sessionFile then (w, none)
      else rotate host config event ctx agentDir cumulativeCount now w

/-- `onGatewayStartup` in the handler: the deterministic recovery table. -/
def onGatewayStartup (host : Host) (config : RotationConfig) (ctx : GatewayCtx)
    (w : World) (now : Int) : World × Option String :=
  match deriveAgentDir ctx with
  | none => (w, none)
  | some agentDir =>
    let state := readStateW w now
    match state.state with
    | .IDLE => (w, none)
    | .PENDING =>
      match writeStateW now w state .IDLE {} with
      | .error e => (w, some e)
      | .ok (_, w) => (w, none)
    | .ARCHIVING =>
      let valid : Bool :=
        match state.archivePath, state.oldSessionFile with
        | some ap, some sf =>
          (ap != "") && (sf != "") && validateArchive host.parseRecord w.files ap sf
        | _, _ => false
      if valid then
        match writeStateW now w state .ARCHIVED {} with
        | .error e => (w, some e)
        | .ok (_, w) => (w, none)
      else
        let w :=
          match state.archivePath with
          | some ap => if ap ≠ "" then { w with files := removeFile w.files ap } else w
          | none => w
        match writeStateW now w state .PENDING { archivePath := some none } with
        | .error e => (w, some e)
        | .ok (_, w) =>
          let updated := readStateW w now
          match writeStateW now w updated .IDLE {} with
          | .error e => (w, some e)
          | .ok (_, w) => (w, none)
    | .ARCHIVED => rotatePhase2 host config ctx agentDir (readStateW w now) now w
    | .INJECTED => finishRotation agentDir (readStateW w now) config now w
    | .COOLDOWN =>
      match state.cooldownUntil with
      | some t =>
        if t ≤ now then
          match writeStateW now w state .IDLE { cooldownUntil := some none } with
          | .error e => (w, some e)
          | .ok (_, w) => (w, none)
        else (w, none)
      | none => (w, none)

-- ---------------------------------------------------------------------------
-- Spec-side definitions
-- ---------------------------------------------------------------------------

/-- The directed transition graph exactly as the spec lists it:
IDLE→PENDING, PENDING→{ARCHIVING, IDLE}, ARCHIVING→{ARCHIVED, PENDING},
ARCHIVED→INJECTED, INJECTED→COOLDOWN, COOLDOWN→IDLE. -/
def specEdge (a b : RotationStateName) : Prop :=
  (a = .IDLE ∧ b = .PENDING) ∨
  (a = .PENDING ∧ (b = .ARCHIVING ∨ b = .IDLE)) ∨
  (a = .ARCHIVING ∧ (b = .ARCHIVED ∨ b = .PENDING)) ∨
  (a = .ARCHIVED ∧ b = .INJECTED) ∨
  (a = .INJECTED ∧ b = .COOLDOWN) ∨
  (a = .COOLDOWN ∧ b = .IDLE)

instance (a b : RotationStateName) : Decidable (specEdge a b) := by
  unfold specEdge; infer_instance

/-- States reachable from IDLE along the spec's directed edges. -/
inductive ReachableFromIdle : RotationStateName → Prop where
  | idle : ReachableFromIdle .IDLE
  | step {a b : RotationStateName} :
      ReachableFromIdle a → specEdge a b → ReachableFromIdle b

/-- A sequence of handler steps that goes through `writeState` only,
stopping at the first fault. -/
def runWrites (now : Int) : World → RotationState →
    List (RotationStateName × StateUpdates) → Option (RotationState × World)
  | w, s, [] => some (s, w)
  | w, s, (n, u) :: rest =>
    match writeStateW now w s n u with
    | .error _ => none
    | .ok (s', w') => runWrites now w' s' rest

-- ---------------------------------------------------------------------------
-- Concrete fixtures used by witnesses and counterexamples
-- ---------------------------------------------------------------------------

/-- A world with no files and no state file. -/
def emptyWorld : World := { files := [], stateFile := none }

/-- A host whose transcript parsers accept nothing (the host JSON layer is
irrelevant for the scenarios evaluated on it). -/
def trivialHost : Host where
  today := "2026-10-12"
  yesterday := "2026-10-11"
  newSessionId := "rotation-1-abcdef"
  parseRecord := fun _ => false
  parseMsg := fun _ => none
  parseLine := fun _ => none

-- ---------------------------------------------------------------------------
-- Helper lemmas
-- ---------------------------------------------------------------------------

lemma mem_VALID_TRANSITIONS_iff_specEdge (a b : RotationStateName) :
    b ∈ VALID_TRANSITIONS a ↔ specEdge a b := by
  cases a <;> cases b <;> decide

lemma runWrites_reachable (now : Int) :
    ∀ (steps : List (RotationStateName × StateUpdates)) (w : World) (s : RotationState),
      ReachableFromIdle s.state →
      ∀ r, runWrites now w s steps = some r → ReachableFromIdle r.1.state := by
  intro steps
  induction steps with
  | nil =>
    intro w s hs r hr
    simp only [runWrites, Option.some.injEq] at hr
    rw [← hr]
    exact hs
  | cons p rest ih =>
    intro w s hs r hr
    obtain ⟨n, u⟩ := p
    simp only [runWrites] at hr
    cases hw : writeStateW now w s n u with
    | error e => rw [hw] at hr; simp at hr
    | ok sw =>
      obtain ⟨s', w'⟩ := sw
      rw [hw] at hr
      have hmem : n ∈ VALID_TRANSITIONS s.state := by
        by_contra hmem
        simp [writeStateW, hmem] at hw
      have hstate : s'.state = n := by
        simp only [writeStateW, if_pos hmem, Except.ok.injEq, Prod.mk.injEq] at hw
        rw [← hw.1]
      have hs' : ReachableFromIdle s'.state := by
        rw [hstate]
        exact ReachableFromIdle.step hs ((mem_VALID_TRANSITIONS_iff_specEdge _ _).mp hmem)
      exact ih w' s' hs' r hr

-- ---------------------------------------------------------------------------
-- C4: writeState legality and reachability
-- ---------------------------------------------------------------------------

/-- C4: `writeState` faults exactly when the requested transition is not an
edge of the spec's directed graph, and every successful `writeState`-only
run from an IDLE state stays within states reachable along those edges. -/
theorem writeState_fault_iff_nonedge_and_reachable :
    (∀ (now : Int) (w : World) (cur : RotationState) (n : RotationStateName) (u : StateUpdates),
      (∃ e, writeStateW now w cur n u = .error e) ↔ ¬ specEdge cur.state n) ∧
    (∀ (now : Int) (steps : List (RotationStateName × StateUpdates)) (w : World)
      (s : RotationState), s.state = .IDLE →
      ∀ r, runWrites now w s steps = some r → ReachableFromIdle r.1.state) := by
  constructor
  · intro now w cur n u
    by_cases h : n ∈ VALID_TRANSITIONS cur.state
    · simp [writeStateW, h, (mem_VALID_TRANSITIONS_iff_specEdge _ _).mp h]
    · have hne : ¬ specEdge cur.state n :=
        fun hc => h ((mem_VALID_TRANSITIONS_iff_specEdge _ _).mpr hc)
      simp [writeStateW, h, hne]
  · intro now steps w s hs r hr
    refine runWrites_reachable now steps w s ?_ r hr
    rw [hs]
    exact ReachableFromIdle.idle

/-- Witness for C4: a faulting non-edge at IDLE, and reachability through the
concrete run IDLE → PENDING → ARCHIVING. -/
theorem writeState_fault_iff_nonedge_and_reachable_witness :
    (∃ e, writeStateW 0 emptyWorld DEFAULT_STATE .ARCHIVED {} = .error e) ∧
    ReachableFromIdle
      ({ DEFAULT_STATE with state := .ARCHIVING } : RotationState).state := by
  constructor
  · exact (writeState_fault_iff_nonedge_and_reachable.1 0 emptyWorld DEFAULT_STATE .ARCHIVED {}).mpr
      (by decide)
  · exact writeState_fault_iff_nonedge_and_reachable.2 0
      [(.PENDING, {}), (.ARCHIVING, {})] emptyWorld DEFAULT_STATE rfl
      ({ DEFAULT_STATE with state := .ARCHIVING },
        { emptyWorld with stateFile := some { DEFAULT_STATE with state := .ARCHIVING } })
      (by decide)

-- ---------------------------------------------------------------------------
-- C9: field updates cannot override the FSM state or the timestamp
-- ---------------------------------------------------------------------------

/-- C9: for any legal successor and any field-update map, even one carrying
`state` or `updatedAt` keys, `writeState` persists a state whose `state`
field is the requested successor and whose `updatedAt` is freshly stamped. -/
theorem writeState_forces_state_and_updatedAt (now : Int) (w : World)
    (cur : RotationState) (n : RotationStateName) (u : StateUpdates)
    (h : n ∈ VALID_TRANSITIONS cur.state) :
    ∃ s', writeStateW now w cur n u = .ok (s', { w with stateFile := some s' }) ∧
      s'.state = n ∧ s'.updatedAt = now := by
  refine ⟨{ applyUpdates cur u with state := n, updatedAt := now }, ?_, rfl, rfl⟩
  simp [writeStateW, h]

/-- Witness for C9 at an update map that tries to override both `state` and
`updatedAt`. -/
theorem writeState_forces_state_and_updatedAt_witness :
    ∃ s', writeStateW 7 emptyWorld DEFAULT_STATE .PENDING
        { state := some .ARCHIVED, updatedAt := some 999 } =
        .ok (s', { emptyWorld with stateFile := some s' }) ∧
      s'.state = .PENDING ∧ s'.updatedAt = 7 :=
  writeState_forces_state_and_updatedAt 7 emptyWorld DEFAULT_STATE .PENDING
    { state := some .ARCHIVED, updatedAt := some 999 } (by decide)

-- ---------------------------------------------------------------------------
-- C7: the three cooldown conditions
-- ---------------------------------------------------------------------------

/-- C7: with a supplied current degradation count, `isInCooldown` is true
exactly when the cooldown timestamp is set and in the future, or the last
rotation is less than `minMinutes` old, or fewer than `minCompactions`
degradations have happened since the last rotation's trigger count. -/
theorem isInCooldown_iff (now : Int) (state : RotationState)
    (config : RotationConfig) (c : Int) :
    isInCooldown now state config (some c) = true ↔
      ((∃ t, state.cooldownUntil = some t ∧ now < t) ∨
       (state.rotationHistory ≠ [] ∧
         now - (state.rotationHistory.getLastD emptyHistoryEntry).rotatedAt <
           config.cooldown.minMinutes * 60000) ∨
       (state.rotationHistory ≠ [] ∧
         c - (state.rotationHistory.getLastD emptyHistoryEntry).triggerCompactionCount <
           config.cooldown.minCompactions)) := by
  cases hcu : state.cooldownUntil with
  | some t =>
    by_cases h1 : now < t
    · simp [isInCooldown, hcu, h1]
    · by_cases hh : state.rotationHistory = []
      · simp [isInCooldown, hcu, h1, hh]
      · have hlen : state.rotationHistory.length ≠ 0 := by
          simpa [List.length_eq_zero] using hh
        by_cases h2 : now - (state.rotationHistory.getLastD emptyHistoryEntry).rotatedAt <
            config.cooldown.minMinutes * 60000
        · simp [isInCooldown, hcu, h1, hh, hlen, h2]
        · by_cases h3 : c - (state.rotationHistory.getLastD emptyHistoryEntry).triggerCompactionCount <
              config.cooldown.minCompactions
          · simp [isInCooldown, hcu, h1, hh, hlen, h2, h3]
          · simp [isInCooldown, hcu, h1, hh, hlen, h2, h3]
  | none =>
    by_cases hh : state.rotationHistory = []
    · simp [isInCooldown, hcu, hh]
    · have hlen : state.rotationHistory.length ≠ 0 := by
        simpa [List.length_eq_zero] using hh
      by_cases h2 : now - (state.rotationHistory.getLastD emptyHistoryEntry).rotatedAt <
          config.cooldown.minMinutes * 60000
      · simp [isInCooldown, hcu, hh, hlen, h2]
      · by_cases h3 : c - (state.rotationHistory.getLastD emptyHistoryEntry).triggerCompactionCount <
            config.cooldown.minCompactions
        · simp [isInCooldown, hcu, hh, hlen, h2, h3]
        · simp [isInCooldown, hcu, hh, hlen, h2, h3]

-- ---------------------------------------------------------------------------
-- C6: archive validation characterisation
-- ---------------------------------------------------------------------------

/-- C6: `validateArchive` is true exactly when the archive file exists, has
at least one record, its first and last records parse, and its record count
equals the original's record count (the original being readable). -/
theorem validateArchive_iff (parseRecord : String → Bool)
    (files : List (String × String)) (archivePath originalPath : String) :
    validateArchive parseRecord files archivePath originalPath = true ↔
      (∃ ac, lookupFile files archivePath = some ac ∧
        fileRecords ac ≠ [] ∧
        parseRecord ((fileRecords ac).headD "") = true ∧
        parseRecord ((fileRecords ac).getLastD "") = true ∧
        ∃ oc, lookupFile files originalPath = some oc ∧
          (fileRecords ac).length = (fileRecords oc).length) := by
  cases hac : lookupFile files archivePath with
  | none => simp [validateArchive, hac]
  | some ac =>
    by_cases hne : fileRecords ac = []
    · simp [validateArchive, hac, hne]
    · have hlen : (fileRecords ac).length ≠ 0 := by
        simpa [List.length_eq_zero] using hne
      by_cases hfirst : parseRecord ((fileRecords ac).head?.getD "") = true
      · by_cases hlast : parseRecord ((fileRecords ac).getLast?.getD "") = true
        · cases hoc : lookupFile files originalPath with
          | none => simp [validateArchive, hac, hne, hlen, hfirst, hlast, hoc]
          | some oc => simp [validateArchive, hac, hne, hlen, hfirst, hlast, hoc]
        · simp [validateArchive, hac, hne, hlen, hfirst, hlast]
      · simp [validateArchive, hac, hne, hlen, hfirst]

-- ---------------------------------------------------------------------------
-- C10: corrupted or missing state file collapses to the default state
-- ---------------------------------------------------------------------------

/-- C10: `readState` returns the fresh default IDLE state (counter 0, empty
history, all nullable fields null) whenever the state file is missing or its
content cannot be parsed; persisted history is silently discarded. -/
theorem readState_default_on_missing_or_corrupt
    (parseState : String → Option RotationState) (raw : Option String) (now : Int)
    (h : raw = none ∨ ∃ c, raw = some c ∧ parseState c = none) :
    readStateFromContent parseState raw now = { DEFAULT_STATE with updatedAt := now } ∧
    (readStateFromContent parseState raw now).state = .IDLE ∧
    (readStateFromContent parseState raw now).cumulativeCompactionCount = 0 ∧
    (readStateFromContent parseState raw now).rotationHistory = [] ∧
    (readStateFromContent parseState raw now).startedAt = none ∧
    (readStateFromContent parseState raw now).oldSessionId = none ∧
    (readStateFromContent parseState raw now).oldSessionFile = none ∧
    (readStateFromContent parseState raw now).archivePath = none ∧
    (readStateFromContent parseState raw now).newSessionId = none ∧
    (readStateFromContent parseState raw now).cooldownUntil = none ∧
    (readStateFromContent parseState raw now).triggerCompactionCount = none ∧
    (readStateFromContent parseState raw now).injectedTokensEstimate = none ∧
    (readStateFromContent parseState raw now).error = none := by
  have heq : readStateFromContent parseState raw now =
      { DEFAULT_STATE with updatedAt := now } := by
    rcases h with h | ⟨c, hc, hp⟩
    · simp [readStateFromContent, h]
    · simp [readStateFromContent, hc, hp]
  rw [heq]
  exact ⟨rfl, rfl, rfl, rfl, rfl, rfl, rfl, rfl, rfl, rfl, rfl, rfl, rfl⟩

/-- Witness for C10 on a present-but-unparsable state file. -/
theorem readState_default_on_missing_or_corrupt_witness :
    readStateFromContent (fun _ => none) (some "not json") 42 =
      { DEFAULT_STATE with updatedAt := 42 } ∧
    (readStateFromContent (fun _ => none) (some "not json") 42).state = .IDLE ∧
    (readStateFromContent (fun _ => none) (some "not json") 42).cumulativeCompactionCount = 0 ∧
    (readStateFromContent (fun _ => none) (some "not json") 42).rotationHistory = [] ∧
    (readStateFromContent (fun _ => none) (some "not json") 42).startedAt = none ∧
    (readStateFromContent (fun _ => none) (some "not json") 42).oldSessionId = none ∧
    (readStateFromContent (fun _ => none) (some "not json") 42).oldSessionFile = none ∧
    (readStateFromContent (fun _ => none) (some "not json") 42).archivePath = none ∧
    (readStateFromContent (fun _ => none) (some "not json") 42).newSessionId = none ∧
    (readStateFromContent (fun _ => none) (some "not json") 42).cooldownUntil = none ∧
    (readStateFromContent (fun _ => none) (some "not json") 42).triggerCompactionCount = none ∧
    (readStateFromContent (fun _ => none) (some "not json") 42).injectedTokensEstimate = none ∧
    (readStateFromContent (fun _ => none) (some "not json") 42).error = none :=
  readState_default_on_missing_or_corrupt (fun _ => none) (some "not json") 42
    (Or.inr ⟨"not json", rfl, rfl⟩)

-- ---------------------------------------------------------------------------
-- C5 / C1: the truncation escalation
-- ---------------------------------------------------------------------------

/-- The four content slots the truncation escalation acts on. -/
structure PayloadContent where
  longTermMemory : String
  todayLog : String
  yesterdayLog : String
  recentMessages : List MessagePair
deriving DecidableEq, Repr

/-- The estimate the assembler recomputes after each step. -/
def contentTokens (meta : RotationMetadata) (c : PayloadContent) : Nat :=
  estimatePayloadTokens c.longTermMemory c.todayLog c.yesterdayLog c.recentMessages meta

/-- Escalation step 1: drop yesterday's log entirely. -/
def dropYesterdayLog (c : PayloadContent) : PayloadContent :=
  { c with yesterdayLog := "" }

/-- Escalation step 2: reduce exchange pairs to at most 3, keeping the most
recent. -/
def reducePairsToThree (c : PayloadContent) : PayloadContent :=
  { c with recentMessages := c.recentMessages.drop (c.recentMessages.length - 3) }

/-- Escalation step 3: truncate long-term memory (truncating empty memory
leaves it empty). -/
def truncateMemoryStep (c : PayloadContent) : PayloadContent :=
  { c with longTermMemory :=
      if c.longTermMemory = "" then "" else truncateMemory c.longTermMemory }

/-- Escalation step 4: drop today's log and reduce pairs to at most 1. -/
def dropTodayAndReduceToOne (c : PayloadContent) : PayloadContent :=
  { c with todayLog := "", recentMessages := c.recentMessages.drop (c.recentMessages.length - 1) }

/-- Modelled from the spec's wording of the truncation policy: the fixed
escalation order, re-estimating after each step, applying step k only if the
estimate still exceeds the budget after steps 1..k-1, and stopping as soon
as the estimate is within budget. -/
def truncationEscalation (B : Int) (meta : RotationMetadata) (c0 : PayloadContent) :
    PayloadContent :=
  if B < (contentTokens meta c0 : Int) then
    let c1 := dropYesterdayLog c0
    if B < (contentTokens meta c1 : Int) then
      let c2 := reducePairsToThree c1
      if B < (contentTokens meta c2 : Int) then
        let c3 := truncateMemoryStep c2
        if B < (contentTokens meta c3 : Int) then dropTodayAndReduceToOne c3
        else c3
      else c2
    else c1
  else c0

lemma drop_length_sub_of_le {α : Type} (l : List α) (n : Nat) (h : l.length ≤ n) :
    l.drop (l.length - n) = l := by
  rw [Nat.sub_eq_zero_of_le h, List.drop_zero]

lemma buildCore_eq_escalation (B : Int) (mem today yest : String)
    (pairs : List MessagePair) (meta : RotationMetadata) :
    buildInjectionPayloadCore B mem today yest pairs meta =
      { longTermMemory := (truncationEscalation B meta ⟨mem, today, yest, pairs⟩).longTermMemory,
        todayLog := (truncationEscalation B meta ⟨mem, today, yest, pairs⟩).todayLog,
        yesterdayLog := (truncationEscalation B meta ⟨mem, today, yest, pairs⟩).yesterdayLog,
        recentMessages := (truncationEscalation B meta ⟨mem, today, yest, pairs⟩).recentMessages,
        metadata := meta,
        estimatedTokens := contentTokens meta (truncationEscalation B meta ⟨mem, today, yest, pairs⟩) } := by
  by_cases h0 : B < (estimatePayloadTokens mem today yest pairs meta : Int)
  · by_cases hy : yest = ""
    · subst hy
      by_cases hp : 3 < pairs.length
      · by_cases h2 : B <
            (estimatePayloadTokens mem today "" (pairs.drop (pairs.length - 3)) meta : Int)
        · by_cases hm : mem = ""
          · subst hm
            simp [buildInjectionPayloadCore, truncationEscalation, contentTokens,
              dropYesterdayLog, reducePairsToThree, truncateMemoryStep,
              dropTodayAndReduceToOne, h0, hp, h2]
          · by_cases h3 : B <
                (estimatePayloadTokens (truncateMemory mem) today ""
                  (pairs.drop (pairs.length - 3)) meta : Int)
            · simp [buildInjectionPayloadCore, truncationEscalation, contentTokens,
                dropYesterdayLog, reducePairsToThree, truncateMemoryStep,
                dropTodayAndReduceToOne, h0, hp, h2, hm, h3]
            · simp [buildInjectionPayloadCore, truncationEscalation, contentTokens,
                dropYesterdayLog, reducePairsToThree, truncateMemoryStep,
                dropTodayAndReduceToOne, h0, hp, h2, hm, h3]
        · simp [buildInjectionPayloadCore, truncationEscalation, contentTokens,
            dropYesterdayLog, reducePairsToThree, truncateMemoryStep,
            dropTodayAndReduceToOne, h0, hp, h2]
      · have hd : pairs.drop (pairs.length - 3) = pairs :=
          drop_length_sub_of_le pairs 3 (Nat.le_of_not_lt hp)
        by_cases hm : mem = ""
        · subst hm
          simp [buildInjectionPayloadCore, truncationEscalation, contentTokens,
            dropYesterdayLog, reducePairsToThree, truncateMemoryStep,
            dropTodayAndReduceToOne, h0, hp, hd]
        · by_cases h3 : B <
              (estimatePayloadTokens (truncateMemory mem) today "" pairs meta : Int)
          · simp [buildInjectionPayloadCore, truncationEscalation, contentTokens,
              dropYesterdayLog, reducePairsToThree, truncateMemoryStep,
              dropTodayAndReduceToOne, h0, hp, hd, hm, h3]
          · simp [buildInjectionPayloadCore, truncationEscalation, contentTokens,
              dropYesterdayLog, reducePairsToThree, truncateMemoryStep,
              dropTodayAndReduceToOne, h0, hp, hd, hm, h3]
    · by_cases h1 : B < (estimatePayloadTokens mem today "" pairs meta : Int)
      · by_cases hp : 3 < pairs.length
        · by_cases h2 : B <
              (estimatePayloadTokens mem today "" (pairs.drop (pairs.length - 3)) meta : Int)
          · by_cases hm : mem = ""
            · subst hm
              simp [buildInjectionPayloadCore, truncationEscalation, contentTokens,
                dropYesterdayLog, reducePairsToThree, truncateMemoryStep,
                dropTodayAndReduceToOne, h0, hy, h1, hp, h2]
            · by_cases h3 : B <
                  (estimatePayloadTokens (truncateMemory mem) today ""
                    (pairs.drop (pairs.length - 3)) meta : Int)
              · simp [buildInjectionPayloadCore, truncationEscalation, contentTokens,
                  dropYesterdayLog, reducePairsToThree, truncateMemoryStep,
                  dropTodayAndReduceToOne, h0, hy, h1, hp, h2, hm, h3]
              · simp [buildInjectionPayloadCore, truncationEscalation, contentTokens,
                  dropYesterdayLog, reducePairsToThree, truncateMemoryStep,
                  dropTodayAndReduceToOne, h0, hy, h1, hp, h2, hm, h3]
          · simp [buildInjectionPayloadCore, truncationEscalation, contentTokens,
              dropYesterdayLog, reducePairsToThree, truncateMemoryStep,
              dropTodayAndReduceToOne, h0, hy, h1, hp, h2]
        · have hd : pairs.drop (pairs.length - 3) = pairs :=
            drop_length_sub_of_le pairs 3 (Nat.le_of_not_lt hp)
          by_cases hm : mem = ""
          · subst hm
            simp [buildInjectionPayloadCore, truncationEscalation, contentTokens,
              dropYesterdayLog, reducePairsToThree, truncateMemoryStep,
              dropTodayAndReduceToOne, h0, hy, h1, hp, hd]
          · by_cases h3 : B <
                (estimatePayloadTokens (truncateMemory mem) today "" pairs meta : Int)
            · simp [buildInjectionPayloadCore, truncationEscalation, contentTokens,
                dropYesterdayLog, reducePairsToThree, truncateMemoryStep,
                dropTodayAndReduceToOne, h0, hy, h1, hp, hd, hm, h3]
            · simp [buildInjectionPayloadCore, truncationEscalation, contentTokens,
                dropYesterdayLog, reducePairsToThree, truncateMemoryStep,
                dropTodayAndReduceToOne, h0, hy, h1, hp, hd, hm, h3]
      · simp [buildInjectionPayloadCore, truncationEscalation, contentTokens,
          dropYesterdayLog, reducePairsToThree, truncateMemoryStep,
          dropTodayAndReduceToOne, h0, hy, h1]
  · simp [buildInjectionPayloadCore, truncationEscalation, contentTokens,
      dropYesterdayLog, reducePairsToThree, truncateMemoryStep,
      dropTodayAndReduceToOne, h0]

/-- C5: the assembler's truncation is exactly the fixed escalation order —
drop yesterday's log; reduce pairs to at most 3 keeping the most recent;
truncate memory to its first 70% and last 20% of lines with a marker; drop
today's log and reduce pairs to at most 1 — re-estimating after each step,
applying a step only while the estimate still exceeds the budget, and
stopping as soon as it is within budget. -/
theorem buildPayload_is_ordered_escalation (B : Int) (mem today yest : String)
    (pairs : List MessagePair) (meta : RotationMetadata) :
    buildInjectionPayloadCore B mem today yest pairs meta =
      { longTermMemory := (truncationEscalation B meta ⟨mem, today, yest, pairs⟩).longTermMemory,
        todayLog := (truncationEscalation B meta ⟨mem, today, yest, pairs⟩).todayLog,
        yesterdayLog := (truncationEscalation B meta ⟨mem, today, yest, pairs⟩).yesterdayLog,
        recentMessages := (truncationEscalation B meta ⟨mem, today, yest, pairs⟩).recentMessages,
        metadata := meta,
        estimatedTokens := contentTokens meta (truncationEscalation B meta ⟨mem, today, yest, pairs⟩) } :=
  buildCore_eq_escalation B mem today yest pairs meta

-- ---------------------------------------------------------------------------
-- C1: the budget bound and its failure mode
-- ---------------------------------------------------------------------------

/-- The content slots exactly as `buildInjectionPayload` gathers them. -/
def gatheredContent (host : Host) (config : RotationConfig) (ctx : GatewayCtx)
    (agentDir : String) (state : RotationState) (w : World) : PayloadContent :=
  let workspaceDir := ctx.workspaceDir.getD (agentDir ++ "/workspace")
  { longTermMemory := readFileOrEmpty w.files (workspaceDir ++ "/MEMORY.md"),
    todayLog := readFileOrEmpty w.files (workspaceDir ++ "/memory/" ++ host.today ++ ".md"),
    yesterdayLog := readFileOrEmpty w.files (workspaceDir ++ "/memory/" ++ host.yesterday ++ ".md"),
    recentMessages := extractRecentMessages host.parseMsg w.files
      (state.oldSessionFile.getD "") config.recentMessagePairs }

/-- The metadata block exactly as `buildInjectionPayload` builds it. -/
def rotationMetadataOf (state : RotationState) : RotationMetadata :=
  { rotationNumber := (state.rotationHistory.length : Int) + 1,
    reason := "compactionCount reached " ++ optIntToString state.triggerCompactionCount,
    previousSessionId := state.oldSessionId.getD "unknown",
    archivePath := state.archivePath.getD "unknown",
    compactionCount := state.triggerCompactionCount.getD 0 }

lemma buildInjectionPayload_eq_core (host : Host) (config : RotationConfig)
    (ctx : GatewayCtx) (agentDir : String) (state : RotationState) (now : Int) (w : World) :
    buildInjectionPayload host config ctx agentDir state now w =
      buildInjectionPayloadCore
        (Int.floor ((config.contextWindow : Rat) * config.injectionBudgetPercent *
          getBackoffMultiplier now state config))
        (gatheredContent host config ctx agentDir state w).longTermMemory
        (gatheredContent host config ctx agentDir state w).todayLog
        (gatheredContent host config ctx agentDir state w).yesterdayLog
        (gatheredContent host config ctx agentDir state w).recentMessages
        (rotationMetadataOf state) := rfl

lemma escalation_within_or_final (B : Int) (meta : RotationMetadata) (c0 : PayloadContent) :
    ((contentTokens meta (truncationEscalation B meta c0) : Nat) : Int) ≤ B ∨
    truncationEscalation B meta c0 =
      dropTodayAndReduceToOne (truncateMemoryStep (reducePairsToThree (dropYesterdayLog c0))) := by
  unfold truncationEscalation
  by_cases a : B < (contentTokens meta c0 : Int)
  · simp only [if_pos a]
    by_cases b : B < (contentTokens meta (dropYesterdayLog c0) : Int)
    · simp only [if_pos b]
      by_cases c : B < (contentTokens meta (reducePairsToThree (dropYesterdayLog c0)) : Int)
      · simp only [if_pos c]
        by_cases d : B <
            (contentTokens meta (truncateMemoryStep (reducePairsToThree (dropYesterdayLog c0))) : Int)
        · simp only [if_pos d]
          exact Or.inr trivial
        · simp only [if_neg d]
          exact Or.inl (not_lt.mp d)
      · simp only [if_neg c]
        exact Or.inl (not_lt.mp c)
    · simp only [if_neg b]
      exact Or.inl (not_lt.mp b)
  · simp only [if_neg a]
    exact Or.inl (not_lt.mp a)

/-- C1 (amended): the payload's `estimatedTokens` never exceeds
`floor(contextWindow × injectionBudgetPercent × backoffMultiplier)` except
when even the fully escalated payload — yesterday's and today's logs
dropped, at most one exchange pair, memory truncated — still exceeds the
budget; in that case `estimatedTokens` equals that fully escalated estimate
(the payload is accepted as-is). -/
theorem buildInjectionPayload_budget_or_fully_truncated (host : Host)
    (config : RotationConfig) (ctx : GatewayCtx) (agentDir : String)
    (state : RotationState) (now : Int) (w : World) :
    ((buildInjectionPayload host config ctx agentDir state now w).estimatedTokens : Int) ≤
      Int.floor ((config.contextWindow : Rat) * config.injectionBudgetPercent *
        getBackoffMultiplier now state config) ∨
    (buildInjectionPayload host config ctx agentDir state now w).estimatedTokens =
      contentTokens (rotationMetadataOf state)
        (dropTodayAndReduceToOne (truncateMemoryStep (reducePairsToThree
          (dropYesterdayLog (gatheredContent host config ctx agentDir state w))))) := by
  rw [buildInjectionPayload_eq_core, buildCore_eq_escalation]
  have hg : (⟨(gatheredContent host config ctx agentDir state w).longTermMemory,
      (gatheredContent host config ctx agentDir state w).todayLog,
      (gatheredContent host config ctx agentDir state w).yesterdayLog,
      (gatheredContent host config ctx agentDir state w).recentMessages⟩ : PayloadContent) =
      gatheredContent host config ctx agentDir state w := rfl
  rw [hg]
  rcases escalation_within_or_final
      (Int.floor ((config.contextWindow : Rat) * config.injectionBudgetPercent *
        getBackoffMultiplier now state config))
      (rotationMetadataOf state)
      (gatheredContent host config ctx agentDir state w) with h | h
  · exact Or.inl h
  · refine Or.inr ?_
    rw [← h]

/-- A configuration with a tiny context window and an exactly representable
budget fraction (4 × 0.5 × 1.0 has no double-rounding issues). -/
def tinyConfig : RotationConfig :=
  { DEFAULT_CONFIG with contextWindow := 4, injectionBudgetPercent := 1 / 2 }

/-- An ARCHIVED-phase state as `rotatePhase2` sees it. -/
def archivedState : RotationState :=
  { DEFAULT_STATE with state := .ARCHIVED, triggerCompactionCount := some 5 }

set_option maxRecDepth 8000 in
/-- Counterexample to C1 as stated: with an empty workspace and no
transcript, the metadata block alone makes `estimatedTokens` exceed
`floor(contextWindow × injectionBudgetPercent × backoffMultiplier)` = 2. -/
theorem buildInjectionPayload_exceeds_budget_counterexample :
    Int.floor ((tinyConfig.contextWindow : Rat) * tinyConfig.injectionBudgetPercent *
        getBackoffMultiplier 0 archivedState tinyConfig) <
      ((buildInjectionPayload trivialHost tinyConfig
          { workspaceDir := some "/agent/workspace" } "/agent"
          archivedState 0 emptyWorld).estimatedTokens : Int) := by
  have hb : Int.floor ((tinyConfig.contextWindow : Rat) * tinyConfig.injectionBudgetPercent *
      getBackoffMultiplier 0 archivedState tinyConfig) = 2 := by
    norm_num [tinyConfig, DEFAULT_CONFIG, archivedState, DEFAULT_STATE, getBackoffMultiplier]
  rw [buildInjectionPayload_eq_core, hb]
  decide

-- ---------------------------------------------------------------------------
-- C2: validation-failure rollback
-- ---------------------------------------------------------------------------

lemma readStateW_mk_some (files : List (String × String)) (s : RotationState) (now : Int) :
    readStateW ⟨files, some s⟩ now = s := rfl

lemma lookupFile_setFile_self (files : List (String × String)) (p c : String) :
    lookupFile (setFile files p c) p = some c := by
  simp [setFile, lookupFile]

/-- C2 (amended): on archive-validation failure the state machine reverts to
PENDING with the archive path cleared and then falls back to IDLE, in both
the startup-recovery path and the rotate path; the partial archive file is
deleted in startup recovery, but in the rotate path it is left in place
(only the error is recorded). -/
theorem validation_failure_rollback :
    (∀ (host : Host) (config : RotationConfig) (ctx : GatewayCtx) (w : World) (now : Int)
      (ws ap sf : String),
      ctx.workspaceDir = some ws → ws ≠ "" →
      (readStateW w now).state = .ARCHIVING →
      (readStateW w now).archivePath = some ap → ap ≠ "" →
      (readStateW w now).oldSessionFile = some sf → sf ≠ "" →
      validateArchive host.parseRecord w.files ap sf = false →
      (onGatewayStartup host config ctx w now).2 = none ∧
      (onGatewayStartup host config ctx w now).1.files = removeFile w.files ap ∧
      (onGatewayStartup host config ctx w now).1.stateFile.map RotationState.state =
        some .IDLE ∧
      (onGatewayStartup host config ctx w now).1.stateFile.map RotationState.archivePath =
        some none) ∧
    (∀ (host : Host) (config : RotationConfig) (event : AfterCompactionEvent)
      (ctx : GatewayCtx) (agentDir : String) (n now : Int) (w : World) (content ap : String),
      (readStateW w now).state = .IDLE →
      lookupFile w.files event.sessionFile = some content →
      ap = agentDir ++ "/sessions/archive/" ++
        ctx.sessionId.getD (basenameJsonl event.sessionFile) ++ ".jsonl" →
      validateArchive host.parseRecord (setFile w.files ap content) ap event.sessionFile = false →
      (rotate host config event ctx agentDir n now w).2 = none ∧
      (rotate host config event ctx agentDir n now w).1.files = setFile w.files ap content ∧
      (rotate host config event ctx agentDir n now w).1.stateFile.map RotationState.state =
        some .IDLE ∧
      (rotate host config event ctx agentDir n now w).1.stateFile.map RotationState.archivePath =
        some none ∧
      (rotate host config event ctx agentDir n now w).1.stateFile.map RotationState.error =
        some (some "Archive validation failed") ∧
      lookupFile (rotate host config event ctx agentDir n now w).1.files ap = some content) := by
  constructor
  · intro host config ctx w now ws ap sf hws hwsne hst hap hapne hsf hsfne hval
    refine ⟨?_, ?_, ?_, ?_⟩ <;>
      simp [onGatewayStartup, deriveAgentDir, hws, hwsne, hst, hap, hapne, hsf, hsfne, hval,
        writeStateW, VALID_TRANSITIONS, applyUpdates, readStateW_mk_some]
  · intro host config event ctx agentDir n now w content ap hst hcontent hap hval
    subst hap
    refine ⟨?_, ?_, ?_, ?_, ?_, ?_⟩ <;>
      simp [rotate, hst, hcontent, hval, writeStateW, VALID_TRANSITIONS, applyUpdates,
        readStateW_mk_some, lookupFile_setFile_self]

/-- An interrupted-archive state as startup recovery finds it. -/
def archivingState : RotationState :=
  { DEFAULT_STATE with
    state := .ARCHIVING
    archivePath := some "/agent/sessions/archive/s1.jsonl"
    oldSessionFile := some "/agent/sessions/s1.jsonl" }

/-- A world holding the session file, a partial archive copy, and the
interrupted ARCHIVING state. -/
def archivingWorld : World :=
  { files := [("/agent/sessions/archive/s1.jsonl", "x"), ("/agent/sessions/s1.jsonl", "x")],
    stateFile := some archivingState }

/-- Witness for C2 on the startup-recovery path (the record does not parse,
so validation fails). -/
theorem validation_failure_rollback_witness :
    (onGatewayStartup trivialHost DEFAULT_CONFIG { workspaceDir := some "/agent/workspace" }
        archivingWorld 0).2 = none ∧
    (onGatewayStartup trivialHost DEFAULT_CONFIG { workspaceDir := some "/agent/workspace" }
        archivingWorld 0).1.files =
      removeFile archivingWorld.files "/agent/sessions/archive/s1.jsonl" ∧
    (onGatewayStartup trivialHost DEFAULT_CONFIG { workspaceDir := some "/agent/workspace" }
        archivingWorld 0).1.stateFile.map RotationState.state = some .IDLE ∧
    (onGatewayStartup trivialHost DEFAULT_CONFIG { workspaceDir := some "/agent/workspace" }
        archivingWorld 0).1.stateFile.map RotationState.archivePath = some none :=
  validation_failure_rollback.1 trivialHost DEFAULT_CONFIG
    { workspaceDir := some "/agent/workspace" } archivingWorld 0
    "/agent/workspace" "/agent/sessions/archive/s1.jsonl" "/agent/sessions/s1.jsonl"
    rfl (by decide) rfl rfl (by decide) rfl (by decide) (by decide)

/-- A world with an empty session file and no rotation state. -/
def sessionWorld : World :=
  { files := [("/agent/sessions/s1.jsonl", "")], stateFile := none }

set_option maxRecDepth 8000 in
/-- Counterexample to C2 as stated: in the rotate path, after archive
validation fails and the machine has fallen back to IDLE with the error
recorded, the partial archive file is still present — the rotate path never
deletes it. -/
theorem rotate_keeps_partial_archive_counterexample :
    (rotate trivialHost DEFAULT_CONFIG { sessionFile := "/agent/sessions/s1.jsonl" } {}
        "/agent" 3 0 sessionWorld).2 = none ∧
    (rotate trivialHost DEFAULT_CONFIG { sessionFile := "/agent/sessions/s1.jsonl" } {}
        "/agent" 3 0 sessionWorld).1.stateFile.map RotationState.state = some .IDLE ∧
    (rotate trivialHost DEFAULT_CONFIG { sessionFile := "/agent/sessions/s1.jsonl" } {}
        "/agent" 3 0 sessionWorld).1.stateFile.map RotationState.error =
      some (some "Archive validation failed") ∧
    lookupFile (rotate trivialHost DEFAULT_CONFIG { sessionFile := "/agent/sessions/s1.jsonl" }
        {} "/agent" 3 0 sessionWorld).1.files "/agent/sessions/archive/s1.jsonl" = some "" := by
  decide

-- ---------------------------------------------------------------------------
-- C3: the cumulative counter and the guard-failure frame
-- ---------------------------------------------------------------------------

lemma writeStateW_ok_inv (now : Int) (w : World) (cur : RotationState)
    (n : RotationStateName) (u : StateUpdates) (s' : RotationState) (w' : World)
    (hw : writeStateW now w cur n u = .ok (s', w')) :
    s' = { applyUpdates cur u with state := n, updatedAt := now } ∧
    w' = { w with stateFile := some s' } := by
  by_cases hmem : n ∈ VALID_TRANSITIONS cur.state
  · simp only [writeStateW, if_pos hmem, Except.ok.injEq, Prod.mk.injEq] at hw
    refine ⟨hw.1.symm, ?_⟩
    rw [← hw.2, hw.1]
  · simp only [writeStateW, if_neg hmem] at hw
    simp at hw

lemma applyUpdates_counter (s : RotationState) (u : StateUpdates)
    (h : u.cumulativeCompactionCount = none) :
    (applyUpdates s u).cumulativeCompactionCount = s.cumulativeCompactionCount := by
  simp [applyUpdates, h]

lemma finishRotation_counter (agentDir : String) (state : RotationState)
    (config : RotationConfig) (now : Int) (w : World) (hsf : w.stateFile = some state) :
    ∃ s', (finishRotation agentDir state config now w).1.stateFile = some s' ∧
      s'.cumulativeCompactionCount = state.cumulativeCompactionCount := by
  simp only [finishRotation]
  split
  · exact ⟨state, hsf, rfl⟩
  · rename_i s1 w1 heq
    obtain ⟨hs1, hw1⟩ := writeStateW_ok_inv _ _ _ _ _ _ _ heq
    refine ⟨s1, by rw [hw1], ?_⟩
    rw [hs1]
    simp [applyUpdates]

lemma rotatePhase2_counter (host : Host) (config : RotationConfig) (ctx : GatewayCtx)
    (agentDir : String) (state : RotationState) (now : Int) (w : World)
    (hsf : w.stateFile = some state) :
    ∃ s', (rotatePhase2 host config ctx agentDir state now w).1.stateFile = some s' ∧
      s'.cumulativeCompactionCount = state.cumulativeCompactionCount := by
  simp only [rotatePhase2]
  split
  · exact ⟨state, hsf, rfl⟩
  · rename_i s1 w1 heq
    obtain ⟨hs1, hw1⟩ := writeStateW_ok_inv _ _ _ _ _ _ _ heq
    have hcnt : s1.cumulativeCompactionCount = state.cumulativeCompactionCount := by
      rw [hs1]; simp [applyUpdates]
    obtain ⟨s', h1, h2⟩ :=
      finishRotation_counter agentDir s1 config now w1 (by rw [hw1])
    exact ⟨s', h1, by rw [h2, hcnt]⟩

lemma rotate_counter (host : Host) (config : RotationConfig) (event : AfterCompactionEvent)
    (ctx : GatewayCtx) (agentDir : String) (k now : Int) (w : World) (s : RotationState)
    (hsf : w.stateFile = some s) :
    ∃ s', (rotate host config event ctx agentDir k now w).1.stateFile = some s' ∧
      s'.cumulativeCompactionCount = s.cumulativeCompactionCount := by
  have hread : readStateW w now = s := by simp [readStateW, hsf]
  simp only [rotate]
  rw [hread]
  split
  · exact ⟨s, hsf, rfl⟩
  · rename_i s1 w1 heq
    obtain ⟨hs1, hw1⟩ := writeStateW_ok_inv _ _ _ _ _ _ _ heq
    have hc1 : s1.cumulativeCompactionCount = s.cumulativeCompactionCount := by
      rw [hs1]; simp [applyUpdates]
    split
    · exact ⟨s1, by rw [hw1], hc1⟩
    · rename_i s2 w2 heq2
      obtain ⟨hs2, hw2⟩ := writeStateW_ok_inv _ _ _ _ _ _ _ heq2
      have hc2 : s2.cumulativeCompactionCount = s.cumulativeCompactionCount := by
        rw [hs2]; simp [applyUpdates, hc1]
      split
      · exact ⟨s2, by rw [hw2], hc2⟩
      · rename_i content hcontent
        split
        · split
          · rename_i heq3
            exact ⟨s2, by rw [hw2], hc2⟩
          · rename_i s3 w3 heq3
            obtain ⟨hs3, hw3⟩ := writeStateW_ok_inv _ _ _ _ _ _ _ heq3
            have hc3 : s3.cumulativeCompactionCount = s.cumulativeCompactionCount := by
              rw [hs3]; simp [applyUpdates, hc2]
            split
            · exact ⟨s3, by rw [hw3], hc3⟩
            · rename_i s4 w4 heq4
              obtain ⟨hs4, hw4⟩ := writeStateW_ok_inv _ _ _ _ _ _ _ heq4
              have hc4 : s4.cumulativeCompactionCount = s.cumulativeCompactionCount := by
                rw [hs4]; simp [applyUpdates, hc3]
              exact ⟨s4, by rw [hw4], hc4⟩
        · split
          · rename_i heq3
            exact ⟨s2, by rw [hw2], hc2⟩
          · rename_i s3 w3 heq3
            obtain ⟨hs3, hw3⟩ := writeStateW_ok_inv _ _ _ _ _ _ _ heq3
            have hc3 : s3.cumulativeCompactionCount = s.cumulativeCompactionCount := by
              rw [hs3]; simp [applyUpdates, hc2]
            obtain ⟨s', h1, h2⟩ :=
              rotatePhase2_counter host config ctx agentDir s3 now w3 (by rw [hw3])
            exact ⟨s', h1, by rw [h2, hc3]⟩

/-- The state as persisted by the unconditional counter patch at the top of
`onAfterCompaction`: only the cumulative counter and the timestamp change. -/
def patchedState (w : World) (now : Int) : RotationState :=
  { readStateW w now with
    cumulativeCompactionCount := (readStateW w now).cumulativeCompactionCount + 1
    updatedAt := now }

/-- C3 (amended): when a workspace directory is derivable and the plugin is
enabled, every degradation event increments and persists the cumulative
counter by exactly one, whatever the FSM state and guard outcomes; and when
the state is IDLE and any guard fails (threshold, circuit breaker, cooldown,
or active tasks), nothing but that counter bump and the timestamp is
mutated. -/
theorem onAfterCompaction_counter_and_frame (host : Host) (config : RotationConfig)
    (event : AfterCompactionEvent) (ctx : GatewayCtx) (w : World) (now : Int) (ws : String)
    (hws : ctx.workspaceDir = some ws) (hwsne : ws ≠ "") (hen : config.enabled = true) :
    (∃ s', (onAfterCompaction host config event ctx w now).1.stateFile = some s' ∧
      s'.cumulativeCompactionCount = (readStateW w now).cumulativeCompactionCount + 1) ∧
    ((readStateW w now).state = .IDLE →
      ((readStateW w now).cumulativeCompactionCount + 1 < config.compactionCountThreshold ∨
        checkCircuitBreaker now (patchedState w now) config = false ∨
        isInCooldown now (patchedState w now) config
          (some ((readStateW w now).cumulativeCompactionCount + 1)) = true ∨
        hasActiveTasks host.parseLine w.files event.sessionFile = true) →
      onAfterCompaction host config event ctx w now =
        ({ w with stateFile := some (patchedState w now) }, none)) := by
  have hder : deriveAgentDir ctx = some (parentDir ws) := by
    simp [deriveAgentDir, hws, hwsne]
  have hpatch : patchStateW now w (readStateW w now)
      { cumulativeCompactionCount := some ((readStateW w now).cumulativeCompactionCount + 1) } =
      (patchedState w now, { w with stateFile := some (patchedState w now) }) := rfl
  constructor
  · simp only [onAfterCompaction, hder, hen, hpatch]
    simp only [Bool.true_eq_false, if_false]
    split
    · split
      · split
        · split
          · exact ⟨patchedState w now, rfl, by simp [patchedState]⟩
          · rename_i s' w' heq
            obtain ⟨hs', hw'⟩ := writeStateW_ok_inv _ _ _ _ _ _ _ heq
            refine ⟨s', by rw [hw'], ?_⟩
            rw [hs']
            simp [applyUpdates, patchedState]
        · exact ⟨patchedState w now, rfl, by simp [patchedState]⟩
      · exact ⟨patchedState w now, rfl, by simp [patchedState]⟩
    · split
      · exact ⟨patchedState w now, rfl, by simp [patchedState]⟩
      · split
        · exact ⟨patchedState w now, rfl, by simp [patchedState]⟩
        · split
          · exact ⟨patchedState w now, rfl, by simp [patchedState]⟩
          · split
            · exact ⟨patchedState w now, rfl, by simp [patchedState]⟩
            · split
              · exact ⟨patchedState w now, rfl, by simp [patchedState]⟩
              · obtain ⟨s', h1, h2⟩ := rotate_counter host config event ctx (parentDir ws)
                  ((readStateW w now).cumulativeCompactionCount + 1) now
                  { w with stateFile := some (patchedState w now) } (patchedState w now) rfl
                exact ⟨s', h1, by rw [h2]; simp [patchedState]⟩
  · intro hidle hguard
    have hps : (patchedState w now).state = .IDLE := by simp [patchedState, hidle]
    by_cases hthr : (readStateW w now).cumulativeCompactionCount + 1 <
        config.compactionCountThreshold
    · simp [onAfterCompaction, hder, hen, hpatch, hps, hthr]
    · by_cases hcb : checkCircuitBreaker now (patchedState w now) config = true
      · by_cases hic : isInCooldown now (patchedState w now) config
            (some ((readStateW w now).cumulativeCompactionCount + 1)) = true
        · simp [onAfterCompaction, hder, hen, hpatch, hps, hthr, hcb, hic]
        · by_cases hat : hasActiveTasks host.parseLine w.files event.sessionFile = true
          · simp [onAfterCompaction, hder, hen, hpatch, hps, hthr, hcb, hic, hat]
          · exfalso
            rcases hguard with h | h | h | h
            · exact hthr h
            · rw [hcb] at h; exact absurd h (by decide)
            · exact hic h
            · exact hat h
      · simp [onAfterCompaction, hder, hen, hpatch, hps, hthr, hcb]

/-- A world whose persisted state carries a cumulative counter of 7. -/
def countWorld : World :=
  { files := [], stateFile := some { DEFAULT_STATE with cumulativeCompactionCount := 7 } }

/-- Witness for C3 (amended) at a concrete IDLE world with counter 7. -/
theorem onAfterCompaction_counter_and_frame_witness :
    (∃ s', (onAfterCompaction trivialHost DEFAULT_CONFIG { sessionFile := "" }
        { workspaceDir := some "/agent/workspace" } countWorld 0).1.stateFile = some s' ∧
      s'.cumulativeCompactionCount =
        (readStateW countWorld 0).cumulativeCompactionCount + 1) ∧
    ((readStateW countWorld 0).state = .IDLE →
      ((readStateW countWorld 0).cumulativeCompactionCount + 1 <
          DEFAULT_CONFIG.compactionCountThreshold ∨
        checkCircuitBreaker 0 (patchedState countWorld 0) DEFAULT_CONFIG = false ∨
        isInCooldown 0 (patchedState countWorld 0) DEFAULT_CONFIG
          (some ((readStateW countWorld 0).cumulativeCompactionCount + 1)) = true ∨
        hasActiveTasks trivialHost.parseLine countWorld.files "" = true) →
      onAfterCompaction trivialHost DEFAULT_CONFIG { sessionFile := "" }
          { workspaceDir := some "/agent/workspace" } countWorld 0 =
        ({ countWorld with stateFile := some (patchedState countWorld 0) }, none)) :=
  onAfterCompaction_counter_and_frame trivialHost DEFAULT_CONFIG { sessionFile := "" }
    { workspaceDir := some "/agent/workspace" } countWorld 0 "/agent/workspace"
    rfl (by decide) rfl

/-- The kill-switch configuration. -/
def disabledConfig : RotationConfig := { DEFAULT_CONFIG with enabled := false }

/-- Counterexample to C3 as stated: with the plugin disabled, a delivered
degradation event leaves the persisted cumulative counter untouched (7, not
8) — the increment is not unconditional. -/
theorem counter_not_incremented_when_disabled_counterexample :
    (onAfterCompaction trivialHost disabledConfig { sessionFile := "" }
        { workspaceDir := some "/agent/workspace" } countWorld 0).1.stateFile.map
      RotationState.cumulativeCompactionCount = some 7 := by
  decide

-- ---------------------------------------------------------------------------
-- C8: the circuit breaker
-- ---------------------------------------------------------------------------

/-- C8: `checkCircuitBreaker` permits rotation exactly when the number of
history entries inside the trailing window is strictly below `maxRotations`;
and when the window already holds `maxRotations` entries, a qualifying
degradation event (enabled, IDLE, threshold met) performs no FSM transition —
only the counter patch is persisted. -/
theorem circuitBreaker_suppresses_rotation :
    (∀ (now : Int) (state : RotationState) (config : RotationConfig),
      checkCircuitBreaker now state config = true ↔
        ((state.rotationHistory.countP (fun h =>
            decide (now - config.circuitBreaker.windowMinutes * 60000 < h.rotatedAt)) : Int) <
          config.circuitBreaker.maxRotations)) ∧
    (∀ (host : Host) (config : RotationConfig) (event : AfterCompactionEvent)
      (ctx : GatewayCtx) (w : World) (now : Int) (ws : String),
      ctx.workspaceDir = some ws → ws ≠ "" →
      config.enabled = true →
      (readStateW w now).state = .IDLE →
      config.compactionCountThreshold ≤ (readStateW w now).cumulativeCompactionCount + 1 →
      config.circuitBreaker.maxRotations ≤
        (((readStateW w now).rotationHistory.countP (fun h =>
          decide (now - config.circuitBreaker.windowMinutes * 60000 < h.rotatedAt))) : Int) →
      onAfterCompaction host config event ctx w now =
        ({ w with stateFile := some (patchedState w now) }, none)) := by
  constructor
  · intro now state config
    simp [checkCircuitBreaker, List.countP_eq_length_filter]
  · intro host config event ctx w now ws hws hwsne hen hidle hthr hmax
    have hder : deriveAgentDir ctx = some (parentDir ws) := by
      simp [deriveAgentDir, hws, hwsne]
    have hpatch : patchStateW now w (readStateW w now)
        { cumulativeCompactionCount := some ((readStateW w now).cumulativeCompactionCount + 1) } =
        (patchedState w now, { w with stateFile := some (patchedState w now) }) := rfl
    have hps : (patchedState w now).state = .IDLE := by simp [patchedState, hidle]
    have hthr' : ¬ ((readStateW w now).cumulativeCompactionCount + 1 <
        config.compactionCountThreshold) := not_lt.mpr hthr
    have hcb : checkCircuitBreaker now (patchedState w now) config = false := by
      have hnot : ¬ ((((readStateW w now).rotationHistory.filter (fun h =>
          decide (now - config.circuitBreaker.windowMinutes * 60000 < h.rotatedAt))).length : Int) <
          config.circuitBreaker.maxRotations) := by
        rw [← List.countP_eq_length_filter]
        exact not_lt.mpr hmax
      simp [checkCircuitBreaker, patchedState, hnot]
    simp [onAfterCompaction, hder, hen, hpatch, hps, hthr', hcb]

/-- Three completed rotations, all inside the trailing 30-minute window at
time 400000. -/
def breakerHistory : List RotationHistoryEntry :=
  [{ rotatedAt := 100000, oldSessionId := "a", newSessionId := "b",
     triggerCompactionCount := 3, injectedTokensEstimate := 10 },
   { rotatedAt := 200000, oldSessionId := "b", newSessionId := "c",
     triggerCompactionCount := 6, injectedTokensEstimate := 10 },
   { rotatedAt := 300000, oldSessionId := "c", newSessionId := "d",
     triggerCompactionCount := 9, injectedTokensEstimate := 10 }]

/-- An IDLE world that already rotated three times in the window. -/
def breakerWorld : World :=
  { files := [],
    stateFile := some { DEFAULT_STATE with
      cumulativeCompactionCount := 11
      rotationHistory := breakerHistory } }

/-- Witness for C8: breaker max=3/window=30, three in-window rotations, a 4th
qualifying event — only the counter patch is persisted. -/
theorem circuitBreaker_suppresses_rotation_witness :
    onAfterCompaction trivialHost DEFAULT_CONFIG { sessionFile := "" }
        { workspaceDir := some "/agent/workspace" } breakerWorld 400000 =
      ({ breakerWorld with stateFile := some (patchedState breakerWorld 400000) }, none) :=
  circuitBreaker_suppresses_rotation.2 trivialHost DEFAULT_CONFIG { sessionFile := "" }
    { workspaceDir := some "/agent/workspace" } breakerWorld 400000 "/agent/workspace"
    rfl (by decide) rfl rfl (by decide) (by decide)

end CoreRotation
